import Mathlib

/-!
Shallow embedding of `src/diffusers/hub_utils.py`.

Each Python function is embedded as a pure Lean function. External
collaborators (the hub client's `Repository` constructor, `whoami`,
`HfFolder.get_token`, `repo.push_to_hub`, the filesystem existence check
for `.gitignore`) are modelled by an `Env` oracle that fixes the outcome
of each external call; side effects are recorded as a trace (`List Event`)
and exceptions as `Except Exc`.  Python's `except EnvironmentError`
corresponds to catching the `Exc.envError` constructor only.
-/

namespace HubUtils

/-- A Python exception, distinguished by class: `envError` models
`EnvironmentError` (the only class this module catches); `other` models any
other exception class. The payload is the exception's message/identity. -/
inductive Exc where
  | envError (msg : String)
  | other (msg : String)
deriving DecidableEq, Repr

/-- The value of the Python variable
`use_auth_token = True if args.hub_token is None else args.hub_token`:
either the literal `True` (cached-credential sentinel) or the explicit
token string. -/
inductive AuthToken where
  | cachedSentinel
  | explicit (tok : String)
deriving DecidableEq, Repr

/-- One recorded external side effect. -/
inductive Event where
  | whoamiCall (token : Option String)
  | repositoryBind (dir : String) (cloneFrom : String) (auth : AuthToken)
      (priv : Option Bool)
  | rmtree (dir : String)
  | gitPull
  | writeGitignore (dir : String) (content : String)
  | makedirs (dir : String)
  | savePretrained (dir : String)
  | killProcess (pid : Nat)
  | pushToHubCall (msg : String) (blocking : Bool) (autoLfsPrune : Bool)
  | writeReadme (dir : String) (content : String)
  | logError (msg : String)
deriving DecidableEq, Repr

/-- An entry of `repo.command_queue`: a background push command with its
completion flag and the id of its underlying OS process. -/
structure Command where
  is_done : Bool
  pid : Nat
deriving DecidableEq, Repr

/-- The `Repository` handle as far as this module touches it: only its
`command_queue` is inspected (entries may be `None` in Python). -/
structure Repo where
  command_queue : List (Option Command)
deriving DecidableEq, Repr

/-- The `args` run configuration object, restricted to the fields read by
`hub_utils.py`. -/
structure Args where
  local_rank : Int
  hub_token : Option String
  hub_model_id : Option String
  output_dir : String
  hub_private_repo : Bool
  overwrite_output_dir : Bool
  hub_strategy : String
deriving DecidableEq, Repr

/-- Oracle fixing the outcome of every external call a single invocation
can make.  `bind1`/`bind2` are the first and the retried `Repository(...)`
construction; `push1`/`push2` are the checkpoint push and the model-card
push; `gitignore_exists` answers the `os.path.exists` check. -/
structure Env where
  stored_token : Option String
  whoami : Option String → Except Exc String
  bind1 : Except Exc Unit
  bind2 : Except Exc Unit
  gitignore_exists : Bool
  push1 : Except Exc String
  push2 : Except Exc Unit

/-- `args.local_rank not in [-1, 0]` is the negation of this. -/
def isPrimary (local_rank : Int) : Bool :=
  local_rank == -1 || local_rank == 0

/-- Python `c in s` for a single character. -/
def strContains (s : String) (c : Char) : Bool :=
  s.data.any (fun a => a == c)

/-- Python `"x/y/z".split("/")` on the character list: splits at every
`/`, keeping empty pieces; the result is never empty. -/
def splitOnSlash : List Char → List (List Char)
  | [] => [[]]
  | a :: rest =>
    match splitOnSlash rest with
    | [] => [[]]
    | h :: t => if a = '/' then [] :: h :: t else (a :: h) :: t

/-- Python `s.split("/")`. -/
def splitSlash (s : String) : List String :=
  (splitOnSlash s.data).map String.mk

/-- `Path(p).name`: the last non-empty `/`-separated component. -/
def pathBaseName (p : String) : String :=
  ((splitSlash p).filter (fun c => c ≠ "")).getLastD ""

/-- Python `s.split("/")[-1]` (split keeps empty pieces; the list is
never empty). -/
def splitSlashLast (s : String) : String :=
  (splitSlash s).getLastD ""

/-- Embedding of `get_full_repo_name(model_id, organization=None, token=None)`.
Returns the trace of external calls and the result. -/
def get_full_repo_name (env : Env) (model_id : String)
    (organization : Option String := none) (token : Option String := none) :
    List Event × Except Exc String :=
  let token := match token with
    | none => env.stored_token
    | some t => some t
  match organization with
  | none =>
    ([Event.whoamiCall token],
     match env.whoami token with
     | .ok username => .ok (username ++ "/" ++ model_id)
     | .error e => .error e)
  | some org => ([], .ok (org ++ "/" ++ model_id))

/-- The repo short name computed by `init_git_repo` before qualification:
`Path(args.output_dir).absolute().name` when `args.hub_model_id is None`
(absolutisation is identity in this model: output directories are taken as
already absolute), else `args.hub_model_id`. -/
def initialRepoName (args : Args) : String :=
  match args.hub_model_id with
  | none => pathBaseName args.output_dir
  | some id => id

/-- The repo-name resolution step of `init_git_repo` (lines 44-49):
qualify via `get_full_repo_name` only when the name has no `/`. -/
def resolveRepoName (env : Env) (args : Args) : List Event × Except Exc String :=
  let repo_name := initialRepoName args
  if strContains repo_name '/' then ([], .ok repo_name)
  else get_full_repo_name env repo_name none args.hub_token

/-- The `.gitignore` seeding step (lines 72-75): write `checkpoint-*/`
(no trailing newline — `writelines` adds none) only when the file does not
exist and the strategy is not `all_checkpoints`. -/
def gitignoreEvents (env : Env) (args : Args) : List Event :=
  if env.gitignore_exists = false ∧ args.hub_strategy ≠ "all_checkpoints" then
    [Event.writeGitignore args.output_dir "checkpoint-*/"]
  else []

/-- The credential computed at entry of `init_git_repo` (line 43):
`True if args.hub_token is None else args.hub_token`. -/
def authOf (hub_token : Option String) : AuthToken :=
  match hub_token with
  | none => .cachedSentinel
  | some t => .explicit t

/-- Embedding of `init_git_repo(args, at_init=False)`.  The result is
`ok none` on the non-primary no-op path, `ok (some auth)` on success with
the credential the surviving `Repository` bind used, and `error e` when an
exception propagates. -/
def init_git_repo (env : Env) (args : Args) (at_init : Bool := false) :
    List Event × Except Exc (Option AuthToken) :=
  if !isPrimary args.local_rank then ([], .ok none)
  else
    let use_auth_token : AuthToken := authOf args.hub_token
    match resolveRepoName env args with
    | (evs, .error e) => (evs, .error e)
    | (evs, .ok repo_name) =>
      let firstBind := Event.repositoryBind args.output_dir repo_name
        use_auth_token (some args.hub_private_repo)
      match env.bind1 with
      | .ok _ =>
        (evs ++ [firstBind, Event.gitPull] ++ gitignoreEvents env args,
         .ok (some use_auth_token))
      | .error e =>
        match e with
        | .envError m =>
          if args.overwrite_output_dir && at_init then
            let retryBind := Event.repositoryBind args.output_dir repo_name
              use_auth_token none
            match env.bind2 with
            | .ok _ =>
              (evs ++ [firstBind, Event.rmtree args.output_dir, retryBind,
                 Event.gitPull] ++ gitignoreEvents env args,
               .ok (some use_auth_token))
            | .error e2 =>
              (evs ++ [firstBind, Event.rmtree args.output_dir, retryBind],
               .error e2)
          else (evs ++ [firstBind], .error (.envError m))
        | .other m => (evs ++ [firstBind], .error (.other m))

/-- The string `AUTOGENERATED_TRAINER_COMMENT` (a triple-quoted Python
literal: leading and trailing newline included). -/
def AUTOGENERATED_TRAINER_COMMENT : String :=
  "\n<!-- This model card has been generated automatically according to the information the Trainer had access to. You\nshould probably proofread and complete it, then remove this comment. -->\n"

/-- `yaml.dump({"license": "apache-2.0", "tags": ["pytorch", "diffusers"]}, sort_keys=False)`:
block style, key order preserved. -/
def yamlMetadata : String :=
  "license: apache-2.0\ntags:\n- pytorch\n- diffusers\n"

/-- The README content built by `create_model_card` (lines 141-150). -/
def modelCardContent (model_name : String) : String :=
  let model_card := ""
  let model_card :=
    if yamlMetadata.length > 0 then "---\n" ++ yamlMetadata ++ "---\n"
    else model_card
  let model_card := model_card ++ AUTOGENERATED_TRAINER_COMMENT
  model_card ++ ("\n# " ++ model_name ++ "\n\n")

/-- Embedding of `create_model_card(args, model_name)`: a no-op off the
primary participant, otherwise one unconditional overwriting write of
`<output_dir>/README.md` (the file's prior state is never consulted). -/
def create_model_card (args : Args) (model_name : String) : List Event :=
  if !isPrimary args.local_rank then []
  else [Event.writeReadme args.output_dir (modelCardContent model_name)]

/-- The queue-cancellation guard of `push_to_hub` (lines 117-122):
`blocking and len(q) > 0 and q[-1] is not None and not q[-1].is_done`. -/
def cancelGuard (repo : Repo) (blocking : Bool) : Option Nat :=
  if blocking = true ∧ 0 < repo.command_queue.length then
    match repo.command_queue.getLastD none with
    | some c => if c.is_done = false then some c.pid else none
    | none => none
  else none

/-- The message logged when the model-card push fails with an
`EnvironmentError` (line 131; the Python f-string renders a literal `$`
before the exception). -/
def modelCardPushErrorLog (m : String) : String :=
  "Error pushing update to the model card. Please read logs and retry.\n$" ++ m

/-- Embedding of `push_to_hub(args, pipeline, repo, commit_message,
blocking, **kwargs)`.  Result is `ok none` on the non-primary early
return, `ok (some url)` on success, `error e` when an exception
propagates. -/
def push_to_hub (env : Env) (args : Args) (repo : Repo)
    (commit_message : String := "End of training") (blocking : Bool := true) :
    List Event × Except Exc (Option String) :=
  let model_name := match args.hub_model_id with
    | none => pathBaseName args.output_dir
    | some id => splitSlashLast id
  let saveEvs := [Event.makedirs args.output_dir,
    Event.savePretrained args.output_dir]
  if !isPrimary args.local_rank then (saveEvs, .ok none)
  else
    let killEvs := match cancelGuard repo blocking with
      | some pid => [Event.killProcess pid]
      | none => []
    let push1Ev := Event.pushToHubCall commit_message blocking true
    match env.push1 with
    | .error e => (saveEvs ++ killEvs ++ [push1Ev], .error e)
    | .ok git_head_commit_url =>
      let cardEvs := create_model_card args model_name
      let push2Ev := Event.pushToHubCall "update model card README.md" blocking true
      match env.push2 with
      | .ok _ =>
        (saveEvs ++ killEvs ++ [push1Ev] ++ cardEvs ++ [push2Ev],
         .ok (some git_head_commit_url))
      | .error (.envError m) =>
        (saveEvs ++ killEvs ++ [push1Ev] ++ cardEvs ++
           [push2Ev, Event.logError (modelCardPushErrorLog m)],
         .ok (some git_head_commit_url))
      | .error (.other m) =>
        (saveEvs ++ killEvs ++ [push1Ev] ++ cardEvs ++ [push2Ev],
         .error (.other m))

/-- `True` iff the event is a `repo.push_to_hub(...)` call. -/
def isPushCall : Event → Bool
  | .pushToHubCall _ _ _ => true
  | _ => false

/-- The `(auth, private)` arguments of the `Repository(...)` constructions
recorded in a trace, in call order. -/
def bindEvents (t : List Event) : List (AuthToken × Option Bool) :=
  t.filterMap fun e => match e with
    | .repositoryBind _ _ a p => some (a, p)
    | _ => none

/-- A test environment in which every external call succeeds. -/
def envOk : Env :=
  { stored_token := some "stored"
    whoami := fun _ => .ok "alice"
    bind1 := .ok ()
    bind2 := .ok ()
    gitignore_exists := false
    push1 := .ok "url"
    push2 := .ok () }

/-- A primary-participant configuration with an explicit hub token and an
already-qualified hub model id. -/
def argsPrim : Args :=
  { local_rank := 0
    hub_token := some "tok"
    hub_model_id := some "org/model"
    output_dir := "out"
    hub_private_repo := true
    overwrite_output_dir := true
    hub_strategy := "every_save" }

/-- `True` iff the event is a `queue[-1]._process.kill()` call. -/
def isKillEvent : Event → Bool
  | .killProcess _ => true
  | _ => false

/-- `True` iff from the first `repo.push_to_hub` call onward the trace
holds no process kill: every forced termination precedes the first push. -/
def killsBeforeFirstPush (t : List Event) : Bool :=
  (t.dropWhile (fun e => !isPushCall e)).all (fun e => !isKillEvent e)

/-- The first `Repository(...)` construction of `init_git_repo`
(lines 52-57): with the `private` keyword argument. -/
def firstBindEvent (args : Args) (rn : String) : Event :=
  Event.repositoryBind args.output_dir rn (authOf args.hub_token)
    (some args.hub_private_repo)

/-- The retried `Repository(...)` construction of `init_git_repo`
(lines 62-66): same `use_auth_token`, no `private` keyword argument. -/
def retryBindEvent (args : Args) (rn : String) : Event :=
  Event.repositoryBind args.output_dir rn (authOf args.hub_token) none

/-- A repository handle with an empty command queue. -/
def repoEmpty : Repo := ⟨[]⟩

/-- The non-primary variant of `argsPrim` (distributed rank 1). -/
def argsRank1 : Args := { argsPrim with local_rank := 1 }

/-- `envOk` but the checkpoint push raises (an arbitrary non-environment
exception). -/
def envPush1Fails : Env := { envOk with push1 := .error (.other "boom") }

/-- `envOk` but the model-card push raises an `EnvironmentError`. -/
def envPush2Denied : Env := { envOk with push2 := .error (.envError "denied") }

/-- `envOk` but the first repository bind raises an `EnvironmentError`
(the retry succeeds). -/
def envBindFails : Env := { envOk with bind1 := .error (.envError "conflict") }

/-- `envOk` but both repository binds raise distinct `EnvironmentError`s. -/
def envBindBothFail : Env :=
  { envOk with bind1 := .error (.envError "first")
               bind2 := .error (.envError "second") }

/-- A repository handle whose last queued command is still in progress. -/
def repoStale : Repo := ⟨[some ⟨false, 7⟩]⟩

/-- A repository handle holding a still-in-progress command that is not the
last queue entry (the last entry is Python `None`). -/
def repoHidden : Repo := ⟨[some ⟨false, 7⟩, none]⟩

set_option maxRecDepth 8192

/-- The repo-name resolution step emits no event or exactly one
`whoamiCall` event. -/
theorem resolveRepoName_trace_cases (env : Env) (args : Args) :
    (resolveRepoName env args).1 = [] ∨
    ∃ t, (resolveRepoName env args).1 = [Event.whoamiCall t] := by
  unfold resolveRepoName
  by_cases h : strContains (initialRepoName args) '/'
  · rw [if_pos h]
    exact Or.inl rfl
  · rw [if_neg h]
    exact Or.inr ⟨_, rfl⟩

/-- Claim C8: `get_full_repo_name` returns `organization/model_id` without
any identity lookup when an organization is supplied; otherwise it returns
`username/model_id` where `username` is the identity-lookup result for the
given token, falling back to the locally stored token when the token
argument is absent. -/
theorem C8_full_repo_name (env : Env) (model_id : String) :
    (∀ org, get_full_repo_name env model_id (some org) none =
        ([], .ok (org ++ "/" ++ model_id))) ∧
    (∀ tok username, env.whoami (some tok) = .ok username →
        get_full_repo_name env model_id none (some tok) =
          ([Event.whoamiCall (some tok)], .ok (username ++ "/" ++ model_id))) ∧
    (∀ username, env.whoami env.stored_token = .ok username →
        get_full_repo_name env model_id none none =
          ([Event.whoamiCall env.stored_token], .ok (username ++ "/" ++ model_id))) := by
  refine ⟨fun org => rfl, fun tok username h => ?_, fun username h => ?_⟩ <;>
    simp [get_full_repo_name, h]

/-- Witness for C8 at `model_id = "foo"`: the organization case yields
`"acme/foo"` with no identity lookup, and the no-organization case yields
`"alice/foo"` via the lookup on the stored token. -/
theorem C8_witness :
    get_full_repo_name envOk "foo" (some "acme") none = ([], .ok "acme/foo") ∧
    envOk.whoami envOk.stored_token = .ok "alice" ∧
    get_full_repo_name envOk "foo" none none =
      ([Event.whoamiCall envOk.stored_token], .ok ("alice" ++ "/" ++ "foo")) :=
  ⟨(C8_full_repo_name envOk "foo").1 "acme", rfl,
   (C8_full_repo_name envOk "foo").2.2 "alice" rfl⟩

/-- Claim C6: on the primary participant `create_model_card` performs one
unconditional overwriting write of `README.md` (prior content never
inspected: the model consults no filesystem state), and the content starts
with `---\n`, contains the line `license: apache-2.0`, contains the
autogenerated-content disclaimer verbatim, and ends with
`# <modelName>\n\n`. -/
theorem C6_model_card (args : Args) (model_name : String)
    (hp : isPrimary args.local_rank = true) :
    create_model_card args model_name =
      [Event.writeReadme args.output_dir (modelCardContent model_name)] ∧
    (∃ s, modelCardContent model_name = "---\n" ++ s) ∧
    (∃ p q, modelCardContent model_name = p ++ "license: apache-2.0\n" ++ q) ∧
    (∃ p q, modelCardContent model_name =
        p ++ AUTOGENERATED_TRAINER_COMMENT ++ q) ∧
    (∃ p, modelCardContent model_name = p ++ ("# " ++ model_name ++ "\n\n")) := by
  refine ⟨by simp [create_model_card, hp], ?_, ?_, ?_, ?_⟩
  · exact ⟨"license: apache-2.0\ntags:\n- pytorch\n- diffusers\n---\n"
      ++ AUTOGENERATED_TRAINER_COMMENT ++ ("\n# " ++ model_name ++ "\n\n"), rfl⟩
  · exact ⟨"---\n", "tags:\n- pytorch\n- diffusers\n---\n"
      ++ AUTOGENERATED_TRAINER_COMMENT ++ ("\n# " ++ model_name ++ "\n\n"), rfl⟩
  · exact ⟨"---\nlicense: apache-2.0\ntags:\n- pytorch\n- diffusers\n---\n",
      "\n# " ++ model_name ++ "\n\n", rfl⟩
  · exact ⟨"---\nlicense: apache-2.0\ntags:\n- pytorch\n- diffusers\n---\n"
      ++ AUTOGENERATED_TRAINER_COMMENT ++ "\n", rfl⟩

/-- Claim C2, amended: on a non-primary participant `init_git_repo` and
`create_model_card` return immediately with no external effect, while
`push_to_hub` performs exactly the pipeline serialization (`makedirs` and
`save_pretrained`) before its rank gate and then returns as a no-op with no
git mutation. -/
theorem C2_amended (env : Env) (args : Args) (at_init : Bool) (repo : Repo)
    (msg : String) (blocking : Bool) (name : String)
    (h : isPrimary args.local_rank = false) :
    init_git_repo env args at_init = ([], .ok none) ∧
    create_model_card args name = [] ∧
    push_to_hub env args repo msg blocking =
      ([Event.makedirs args.output_dir, Event.savePretrained args.output_dir],
       .ok none) := by
  refine ⟨?_, ?_, ?_⟩ <;> simp [init_git_repo, create_model_card, push_to_hub, h]

/-- Witness for the amended C2 at rank 1. -/
theorem C2_witness :
    init_git_repo envOk argsRank1 true = ([], .ok none) ∧
    create_model_card argsRank1 "m" = [] ∧
    push_to_hub envOk argsRank1 repoEmpty "m" true =
      ([Event.makedirs "out", Event.savePretrained "out"], .ok none) :=
  C2_amended envOk argsRank1 true repoEmpty "m" true "m" rfl

/-- Counterexample to C2 as stated: on rank 1 (not in {-1, 0}),
`push_to_hub` is not a filesystem no-op — it serializes the pipeline into
the output directory before the rank gate. -/
theorem C2_counterexample :
    isPrimary argsRank1.local_rank = false ∧
    Event.savePretrained "out" ∈
      (push_to_hub envOk argsRank1 repoEmpty "m" true).1 := by decide

/-- Claim C3: `push_to_hub` serializes the pipeline (`makedirs` then
`save_pretrained`) as its first two effects on every call, and on a
non-primary participant it then returns nothing, with no cancellation, no
push and no model-card write. -/
theorem C3_gate_after_serialization (env : Env) (args : Args) (repo : Repo)
    (msg : String) (blocking : Bool) :
    (push_to_hub env args repo msg blocking).1.take 2 =
      [Event.makedirs args.output_dir, Event.savePretrained args.output_dir] ∧
    (isPrimary args.local_rank = false →
      push_to_hub env args repo msg blocking =
        ([Event.makedirs args.output_dir, Event.savePretrained args.output_dir],
         .ok none)) := by
  unfold push_to_hub
  by_cases h : isPrimary args.local_rank <;> simp [h]
  rcases env.push1 with e | url <;> rcases env.push2 with e2 | u <;>
    try rcases e2 with m | m
  all_goals simp

/-- Witness for C3 at rank 2: the serialization events occur, and the call
returns nothing further. -/
theorem C3_witness :
    (push_to_hub envOk { argsPrim with local_rank := 2 } repoEmpty "m" true).1.take 2 =
      [Event.makedirs "out", Event.savePretrained "out"] ∧
    push_to_hub envOk { argsPrim with local_rank := 2 } repoEmpty "m" true =
      ([Event.makedirs "out", Event.savePretrained "out"], .ok none) :=
  ⟨(C3_gate_after_serialization envOk { argsPrim with local_rank := 2 }
      repoEmpty "m" true).1,
   (C3_gate_after_serialization envOk { argsPrim with local_rank := 2 }
      repoEmpty "m" true).2 rfl⟩

/-- Witness for C6 at the primary configuration `argsPrim` and model name
`"mymodel"`. -/
theorem C6_witness :
    create_model_card argsPrim "mymodel" =
      [Event.writeReadme argsPrim.output_dir (modelCardContent "mymodel")] ∧
    (∃ s, modelCardContent "mymodel" = "---\n" ++ s) ∧
    (∃ p q, modelCardContent "mymodel" = p ++ "license: apache-2.0\n" ++ q) ∧
    (∃ p q, modelCardContent "mymodel" =
        p ++ AUTOGENERATED_TRAINER_COMMENT ++ q) ∧
    (∃ p, modelCardContent "mymodel" = p ++ ("# " ++ "mymodel" ++ "\n\n")) :=
  C6_model_card argsPrim "mymodel" rfl

/-- The queue-cancellation guard fires exactly when `blocking` is true and
the last queue entry is a not-yet-done command; it returns that command's
process id. -/
theorem cancelGuard_eq_some (repo : Repo) (blocking : Bool) (pid : Nat) :
    cancelGuard repo blocking = some pid ↔
      blocking = true ∧ ∃ c, repo.command_queue.getLastD none = some c ∧
        c.is_done = false ∧ pid = c.pid := by
  unfold cancelGuard
  by_cases hb : blocking = true ∧ 0 < repo.command_queue.length
  · rw [if_pos hb]
    rcases hl : repo.command_queue.getLastD none with _ | c
    · simp [hb.1, hl]
    · by_cases hd : c.is_done = false <;> simp [hd, hb.1, hl]
      exact eq_comm
  · rw [if_neg hb]
    constructor
    · rintro h
      cases h
    · rintro ⟨hbt, c, hc, hd, rfl⟩
      rcases hq : repo.command_queue with _ | ⟨x, xs⟩
      · rw [hq] at hc
        simp [List.getLastD] at hc
      · exact absurd ⟨hbt, by rw [hq]; simp⟩ hb

/-- With `blocking = false` the cancellation guard never fires. -/
theorem cancelGuard_false (repo : Repo) : cancelGuard repo false = none := by
  unfold cancelGuard
  rw [if_neg]
  rintro ⟨h, -⟩
  cases h

/-- Claim C4: on the primary participant, if the checkpoint push raises any
exception, the model card is never written, only one push call was made and
the exception surfaces unchanged; if the checkpoint push succeeds and the
model-card push raises an `EnvironmentError`, the error is logged and the
function returns the checkpoint push's result. -/
theorem C4_push_errors (env : Env) (args : Args) (repo : Repo) (msg : String)
    (blocking : Bool) (hp : isPrimary args.local_rank = true) :
    (∀ e, env.push1 = .error e →
      (push_to_hub env args repo msg blocking).2 = .error e ∧
      (∀ d c, Event.writeReadme d c ∉ (push_to_hub env args repo msg blocking).1) ∧
      (push_to_hub env args repo msg blocking).1.countP isPushCall = 1) ∧
    (∀ url m, env.push1 = .ok url → env.push2 = .error (.envError m) →
      (push_to_hub env args repo msg blocking).2 = .ok (some url) ∧
      Event.logError (modelCardPushErrorLog m) ∈
        (push_to_hub env args repo msg blocking).1) := by
  unfold push_to_hub
  constructor
  · intro e he
    rcases hcg : cancelGuard repo blocking with _ | pid <;>
      simp [hp, he, hcg, isPushCall]
  · intro url m h1 h2
    rcases hcg : cancelGuard repo blocking with _ | pid <;>
      simp [hp, h1, h2, hcg, create_model_card]

/-- Witness for C4: with a failing checkpoint push the error surfaces and
no model card is written; with a failing model-card push the checkpoint
push's url is still returned and the error is logged. -/
theorem C4_witness :
    ((push_to_hub envPush1Fails argsPrim repoEmpty "m" true).2 =
        .error (.other "boom") ∧
      (∀ d c, Event.writeReadme d c ∉
        (push_to_hub envPush1Fails argsPrim repoEmpty "m" true).1) ∧
      (push_to_hub envPush1Fails argsPrim repoEmpty "m" true).1.countP
        isPushCall = 1) ∧
    ((push_to_hub envPush2Denied argsPrim repoEmpty "m" true).2 =
        .ok (some "url") ∧
      Event.logError (modelCardPushErrorLog "denied") ∈
        (push_to_hub envPush2Denied argsPrim repoEmpty "m" true).1) :=
  ⟨(C4_push_errors envPush1Fails argsPrim repoEmpty "m" true rfl).1
      (.other "boom") rfl,
   (C4_push_errors envPush2Denied argsPrim repoEmpty "m" true rfl).2
      "url" "denied" rfl rfl⟩

/-- Claim C9, amended: on the primary participant a process kill occurs iff
`blocking` is true and the LAST queue entry is a not-yet-done command (the
code inspects only `command_queue[-1]`; earlier in-progress commands are
not cancelled), the killed process is that command's; with
`blocking = false` no kill occurs; and every kill precedes the new push. -/
theorem C9_amended (env : Env) (args : Args) (repo : Repo) (msg : String)
    (blocking : Bool) (hp : isPrimary args.local_rank = true) :
    (∀ pid, Event.killProcess pid ∈ (push_to_hub env args repo msg blocking).1 ↔
      (blocking = true ∧ ∃ c, repo.command_queue.getLastD none = some c ∧
        c.is_done = false ∧ pid = c.pid)) ∧
    (blocking = false →
      ∀ pid, Event.killProcess pid ∉ (push_to_hub env args repo msg blocking).1) ∧
    (push_to_hub env args repo msg blocking).1.any isPushCall = true ∧
    killsBeforeFirstPush (push_to_hub env args repo msg blocking).1 = true := by
  have hmain : ∀ pid,
      Event.killProcess pid ∈ (push_to_hub env args repo msg blocking).1 ↔
      cancelGuard repo blocking = some pid := by
    intro pid
    unfold push_to_hub
    rcases hcg : cancelGuard repo blocking with _ | p <;>
      rcases env.push1 with e | url <;>
      try rcases henv : env.push2 with e2 | u <;> try rcases e2 with m | m
    all_goals simp [hp, hcg, create_model_card, henv]
    all_goals exact eq_comm
  refine ⟨fun pid => (hmain pid).trans (cancelGuard_eq_some repo blocking pid),
    fun hb pid hmem => ?_, ?_, ?_⟩
  · rw [hmain pid, hb, cancelGuard_false] at hmem
    cases hmem
  all_goals
    unfold push_to_hub
    rcases hcg : cancelGuard repo blocking with _ | p <;>
      rcases env.push1 with e | url <;>
      try rcases henv : env.push2 with e2 | u <;> try rcases e2 with m | m
  all_goals simp [hp, hcg, create_model_card, henv, killsBeforeFirstPush,
    isPushCall, isKillEvent, List.dropWhile, List.all]

/-- Witness for the amended C9: with a stale in-progress last command the
kill occurs (pid 7) and precedes the push; with `blocking = false` no kill
occurs. -/
theorem C9_witness :
    Event.killProcess 7 ∈ (push_to_hub envOk argsPrim repoStale "m" true).1 ∧
    (∀ pid, Event.killProcess pid ∉
      (push_to_hub envOk argsPrim repoStale "m" false).1) ∧
    killsBeforeFirstPush (push_to_hub envOk argsPrim repoStale "m" true).1 =
      true :=
  ⟨((C9_amended envOk argsPrim repoStale "m" true rfl).1 7).mpr
      ⟨rfl, ⟨⟨false, 7⟩, rfl, rfl, rfl⟩⟩,
   fun pid => (C9_amended envOk argsPrim repoStale "m" false rfl).2.1 rfl pid,
   (C9_amended envOk argsPrim repoStale "m" true rfl).2.2.2⟩

/-- Counterexample to C9 as stated: the queue `repoHidden` holds a
still-in-progress command, yet no process is killed at blocking-push time,
because the code inspects only the last queue entry (which is `None`). -/
theorem C9_counterexample :
    (∃ c ∈ repoHidden.command_queue, ∃ cmd, c = some cmd ∧
      cmd.is_done = false) ∧
    (push_to_hub envOk argsPrim repoHidden "m" true).1.countP isKillEvent =
      0 := by
  decide

/-- The `.gitignore` step writes either nothing or exactly one file. -/
theorem gitignoreEvents_cases (env : Env) (args : Args) :
    gitignoreEvents env args = [] ∨
    gitignoreEvents env args =
      [Event.writeGitignore args.output_dir "checkpoint-*/"] := by
  unfold gitignoreEvents
  split
  · exact Or.inr rfl
  · exact Or.inl rfl

/-- When the file is absent and the strategy keeps not all checkpoints,
the `.gitignore` step writes exactly `checkpoint-*/`. -/
theorem gitignoreEvents_pos (env : Env) (args : Args)
    (hex : env.gitignore_exists = false)
    (hst : args.hub_strategy ≠ "all_checkpoints") :
    gitignoreEvents env args =
      [Event.writeGitignore args.output_dir "checkpoint-*/"] := by
  unfold gitignoreEvents
  rw [if_pos ⟨hex, hst⟩]

/-- Membership characterization of the `.gitignore` write. -/
theorem mem_gitignoreEvents (env : Env) (args : Args) (d c : String) :
    Event.writeGitignore d c ∈ gitignoreEvents env args ↔
      d = args.output_dir ∧ c = "checkpoint-*/" ∧
      env.gitignore_exists = false ∧ args.hub_strategy ≠ "all_checkpoints" := by
  unfold gitignoreEvents
  split
  next hcond =>
    simp only [List.mem_singleton, Event.writeGitignore.injEq]
    constructor
    · rintro ⟨rfl, rfl⟩
      exact ⟨rfl, rfl, hcond.1, hcond.2⟩
    · rintro ⟨rfl, rfl, -, -⟩
      exact ⟨rfl, rfl⟩
  next hcond =>
    simp only [List.not_mem_nil, false_iff]
    rintro ⟨rfl, rfl, hex, hst⟩
    exact hcond ⟨hex, hst⟩

/-- Exhaustive case analysis of `init_git_repo`: the no-op path, the
name-resolution failure, the direct bind success, the wipe-and-retry
success, the failed retry, the non-retried `EnvironmentError` and the
uncaught non-environment exception, each with its exact trace and result. -/
theorem init_git_repo_cases (env : Env) (args : Args) (at_init : Bool) :
    (isPrimary args.local_rank = false ∧
      init_git_repo env args at_init = ([], .ok none)) ∨
    (isPrimary args.local_rank = true ∧
      ∃ evs, ((∃ e, resolveRepoName env args = (evs, .error e) ∧
        init_git_repo env args at_init = (evs, .error e)) ∨
      (∃ rn, resolveRepoName env args = (evs, .ok rn) ∧
        ((env.bind1 = .ok () ∧
          init_git_repo env args at_init =
            (evs ++ [firstBindEvent args rn, Event.gitPull] ++
               gitignoreEvents env args,
             .ok (some (authOf args.hub_token)))) ∨
         (∃ m, env.bind1 = .error (.envError m) ∧
           (args.overwrite_output_dir && at_init) = true ∧
           ((env.bind2 = .ok () ∧
             init_git_repo env args at_init =
               (evs ++ [firstBindEvent args rn, Event.rmtree args.output_dir,
                  retryBindEvent args rn, Event.gitPull] ++
                  gitignoreEvents env args,
                .ok (some (authOf args.hub_token)))) ∨
            (∃ e2, env.bind2 = .error e2 ∧
              init_git_repo env args at_init =
                (evs ++ [firstBindEvent args rn, Event.rmtree args.output_dir,
                   retryBindEvent args rn],
                 .error e2)))) ∨
         (∃ m, env.bind1 = .error (.envError m) ∧
           (args.overwrite_output_dir && at_init) = false ∧
           init_git_repo env args at_init =
             (evs ++ [firstBindEvent args rn], .error (.envError m))) ∨
         (∃ m, env.bind1 = .error (.other m) ∧
           init_git_repo env args at_init =
             (evs ++ [firstBindEvent args rn], .error (.other m))))))) := by
  cases hp : isPrimary args.local_rank
  · exact Or.inl ⟨rfl, by simp [init_git_repo, hp]⟩
  · refine Or.inr ⟨rfl, ?_⟩
    rcases hres : resolveRepoName env args with ⟨evs, r⟩
    refine ⟨evs, ?_⟩
    rcases r with e | rn
    · exact Or.inl ⟨e, rfl, by simp [init_git_repo, hp, hres]⟩
    · refine Or.inr ⟨rn, rfl, ?_⟩
      rcases hb1 : env.bind1 with e | u
      · rcases e with m | m
        · cases ho : args.overwrite_output_dir && at_init
          · refine Or.inr (Or.inr (Or.inl ⟨m, rfl, rfl, ?_⟩))
            simp [init_git_repo, hp, hres, hb1, ho, firstBindEvent]
          · refine Or.inr (Or.inl ⟨m, rfl, rfl, ?_⟩)
            rcases hb2 : env.bind2 with e2 | u2
            · refine Or.inr ⟨e2, rfl, ?_⟩
              simp [init_git_repo, hp, hres, hb1, ho, hb2, firstBindEvent,
                retryBindEvent]
            · refine Or.inl ⟨rfl, ?_⟩
              simp [init_git_repo, hp, hres, hb1, ho, hb2, firstBindEvent,
                retryBindEvent]
        · refine Or.inr (Or.inr (Or.inr ⟨m, rfl, ?_⟩))
          simp [init_git_repo, hp, hres, hb1, firstBindEvent]
      · refine Or.inl ⟨rfl, ?_⟩
        simp [init_git_repo, hp, hres, hb1, firstBindEvent]

/-- Claim C1, amended: the retried bind uses the same credential value
computed at entry — the cached-credential sentinel exactly when
`args.hub_token` is `None`, otherwise the explicit token (never the
sentinel in place of a supplied token). -/
theorem C1_amended (env : Env) (args : Args) (at_init : Bool) (d cf : String)
    (a : AuthToken)
    (hm : Event.repositoryBind d cf a none ∈ (init_git_repo env args at_init).1) :
    a = authOf args.hub_token := by
  rcases init_git_repo_cases env args at_init with ⟨hp, heq⟩ | ⟨hp, evs, hcase⟩
  · rw [heq] at hm
    simp at hm
  · have hresv : (resolveRepoName env args).1 = evs := by
      rcases hcase with ⟨e, hres, -⟩ | ⟨rn, hres, -⟩ <;> rw [hres]
    have hevsnb : Event.repositoryBind d cf a none ∉ evs := by
      rcases resolveRepoName_trace_cases env args with h0 | ⟨t, h0⟩ <;>
        rw [hresv] at h0 <;> rw [h0] <;> simp
    have hgnb : Event.repositoryBind d cf a none ∉ gitignoreEvents env args := by
      rcases gitignoreEvents_cases env args with hg | hg <;> rw [hg] <;> simp
    rcases hcase with ⟨e, hres, heq⟩ | ⟨rn, hres, hcase2⟩
    · rw [heq] at hm
      exact absurd hm hevsnb
    · rcases hcase2 with ⟨-, heq⟩ | ⟨m, -, -, ⟨-, heq⟩ | ⟨e2, -, heq⟩⟩ |
        ⟨m, -, -, heq⟩ | ⟨m, -, heq⟩ <;> rw [heq] at hm <;>
        simp [firstBindEvent, retryBindEvent, hevsnb, hgnb] at hm <;>
        exact hm.2.2

/-- Witness for the amended C1: the retry bind occurs (second bind, no
`private` argument) and carries the explicit token, which is the entry
credential for `argsPrim`. -/
theorem C1_witness :
    Event.repositoryBind "out" "org/model" (AuthToken.explicit "tok") none ∈
      (init_git_repo envBindFails argsPrim true).1 ∧
    AuthToken.explicit "tok" = authOf argsPrim.hub_token :=
  ⟨by decide,
   C1_amended envBindFails argsPrim true "out" "org/model"
     (AuthToken.explicit "tok") (by decide)⟩

/-- Counterexample to C1 as stated: with an explicitly supplied
`hub_token`, the retried bind (the second bind event, without the
`private` argument) uses the explicit token, not the cached-credential
sentinel `True`. -/
theorem C1_counterexample :
    argsPrim.hub_token = some "tok" ∧
    bindEvents (init_git_repo envBindFails argsPrim true).1 =
      [(AuthToken.explicit "tok", some true),
       (AuthToken.explicit "tok", none)] := by
  decide

/-- Claim C5, amended: when the first bind raises an `EnvironmentError` on
the primary participant, the output directory is wiped and the bind
retried exactly once iff overwrite is permitted and `at_init` holds; a
failing retry propagates the retry's error (not the original), and when
the conditions do not hold the original error propagates with no wipe. -/
theorem C5_amended (env : Env) (args : Args) (at_init : Bool)
    (evs : List Event) (rn : String) (m : String)
    (hp : isPrimary args.local_rank = true)
    (hr : resolveRepoName env args = (evs, .ok rn))
    (hb : env.bind1 = .error (.envError m)) :
    ((args.overwrite_output_dir && at_init) = true →
      (env.bind2 = .ok () →
        init_git_repo env args at_init =
          (evs ++ [Event.repositoryBind args.output_dir rn
              (authOf args.hub_token) (some args.hub_private_repo),
            Event.rmtree args.output_dir,
            Event.repositoryBind args.output_dir rn (authOf args.hub_token)
              none,
            Event.gitPull] ++ gitignoreEvents env args,
           .ok (some (authOf args.hub_token)))) ∧
      (∀ e2, env.bind2 = .error e2 →
        init_git_repo env args at_init =
          (evs ++ [Event.repositoryBind args.output_dir rn
              (authOf args.hub_token) (some args.hub_private_repo),
            Event.rmtree args.output_dir,
            Event.repositoryBind args.output_dir rn (authOf args.hub_token)
              none],
           .error e2))) ∧
    ((args.overwrite_output_dir && at_init) = false →
      init_git_repo env args at_init =
        (evs ++ [Event.repositoryBind args.output_dir rn
            (authOf args.hub_token) (some args.hub_private_repo)],
         .error (.envError m))) := by
  unfold init_git_repo
  refine ⟨fun ho => ⟨fun h2 => ?_, fun e2 h2 => ?_⟩, fun ho => ?_⟩
  · simp [hp, hr, hb, ho, h2]
  · simp [hp, hr, hb, ho, h2]
  · simp [hp, hr, hb, ho]

/-- Witness for the amended C5: a successful retry after a wipe, a failed
retry propagating the retry's error, and a non-permitted overwrite
propagating the original error. -/
theorem C5_witness :
    init_git_repo envBindFails argsPrim true =
      ([Event.repositoryBind "out" "org/model" (AuthToken.explicit "tok")
          (some true),
        Event.rmtree "out",
        Event.repositoryBind "out" "org/model" (AuthToken.explicit "tok") none,
        Event.gitPull, Event.writeGitignore "out" "checkpoint-*/"],
       .ok (some (AuthToken.explicit "tok"))) ∧
    init_git_repo envBindBothFail argsPrim true =
      ([Event.repositoryBind "out" "org/model" (AuthToken.explicit "tok")
          (some true),
        Event.rmtree "out",
        Event.repositoryBind "out" "org/model" (AuthToken.explicit "tok") none],
       .error (.envError "second")) ∧
    init_git_repo envBindFails { argsPrim with overwrite_output_dir := false }
        true =
      ([Event.repositoryBind "out" "org/model" (AuthToken.explicit "tok")
          (some true)],
       .error (.envError "conflict")) :=
  ⟨((C5_amended envBindFails argsPrim true [] "org/model" "conflict"
      rfl rfl rfl).1 rfl).1 rfl,
   ((C5_amended envBindBothFail argsPrim true [] "org/model" "first"
      rfl rfl rfl).1 rfl).2 (.envError "second") rfl,
   (C5_amended envBindFails { argsPrim with overwrite_output_dir := false }
      true [] "org/model" "conflict" rfl rfl rfl).2 rfl⟩

/-- Counterexample to C5 as stated: when the retry also fails, the error
that propagates is the retry's (`"second"`), not the original
(`"first"`). -/
theorem C5_counterexample :
    envBindBothFail.bind1 = .error (.envError "first") ∧
    (init_git_repo envBindBothFail argsPrim true).2 =
      .error (.envError "second") :=
  ⟨rfl, rfl⟩

/-- Claim C7: on the primary participant, every `.gitignore` write made by
`init_git_repo` targets `<output_dir>/.gitignore` with exactly
`checkpoint-*/` (no trailing newline) and happens only when the file was
absent and the strategy is not `all_checkpoints`; and whenever the call
completes with a repository handle under those two conditions the write
does occur. -/
theorem C7_gitignore (env : Env) (args : Args) (at_init : Bool)
    (hp : isPrimary args.local_rank = true) :
    (∀ d c, Event.writeGitignore d c ∈ (init_git_repo env args at_init).1 →
      d = args.output_dir ∧ c = "checkpoint-*/" ∧ env.gitignore_exists = false ∧
      args.hub_strategy ≠ "all_checkpoints") ∧
    (∀ a, (init_git_repo env args at_init).2 = .ok (some a) →
      env.gitignore_exists = false → args.hub_strategy ≠ "all_checkpoints" →
      Event.writeGitignore args.output_dir "checkpoint-*/" ∈
        (init_git_repo env args at_init).1) := by
  rcases init_git_repo_cases env args at_init with ⟨hp0, heq⟩ | ⟨-, evs, hcase⟩
  · rw [hp0] at hp
    cases hp
  · have hresv : (resolveRepoName env args).1 = evs := by
      rcases hcase with ⟨e, hres, -⟩ | ⟨rn, hres, -⟩ <;> rw [hres]
    have hevsnw : ∀ d c, Event.writeGitignore d c ∉ evs := by
      rcases resolveRepoName_trace_cases env args with h0 | ⟨t, h0⟩ <;>
        rw [hresv] at h0 <;> rw [h0] <;> simp
    constructor
    · intro d c hm
      rcases hcase with ⟨e, hres, heq⟩ | ⟨rn, hres, hcase2⟩
      · rw [heq] at hm
        exact absurd hm (hevsnw d c)
      · rcases hcase2 with ⟨-, heq⟩ | ⟨m, -, -, ⟨-, heq⟩ | ⟨e2, -, heq⟩⟩ |
          ⟨m, -, -, heq⟩ | ⟨m, -, heq⟩ <;> rw [heq] at hm <;>
          simp [firstBindEvent, retryBindEvent, hevsnw d c] at hm <;>
          exact (mem_gitignoreEvents env args d c).mp hm
    · intro a hres2 hex hst
      rcases hcase with ⟨e, hres, heq⟩ | ⟨rn, hres, hcase2⟩
      · rw [heq] at hres2
        simp at hres2
      · rcases hcase2 with ⟨-, heq⟩ | ⟨m, -, -, ⟨-, heq⟩ | ⟨e2, -, heq⟩⟩ |
          ⟨m, -, -, heq⟩ | ⟨m, -, heq⟩ <;> rw [heq] at hres2 ⊢
        · simp [gitignoreEvents_pos env args hex hst]
        · simp [gitignoreEvents_pos env args hex hst]
        · simp at hres2
        · simp at hres2
        · simp at hres2

/-- Witness for C7: with no pre-existing `.gitignore` and a non-keep-all
strategy, the completed call writes `checkpoint-*/`. -/
theorem C7_witness :
    Event.writeGitignore "out" "checkpoint-*/" ∈
      (init_git_repo envOk argsPrim true).1 :=
  (C7_gitignore envOk argsPrim true rfl).2 (AuthToken.explicit "tok") rfl rfl
    (by decide)

/-- `bindEvents` distributes over trace concatenation. -/
theorem bindEvents_append (l1 l2 : List Event) :
    bindEvents (l1 ++ l2) = bindEvents l1 ++ bindEvents l2 :=
  List.filterMap_append l1 l2 _

/-- Claim C10: in every configuration, `init_git_repo` makes at most two
`Repository(...)` constructions; the first carries
`private = args.hub_private_repo` and the retry carries no `private`
argument (so the visibility flag is applied only on the first attempt). -/
theorem C10_no_private_on_retry (env : Env) (args : Args) (at_init : Bool) :
    bindEvents (init_git_repo env args at_init).1 = [] ∨
    bindEvents (init_git_repo env args at_init).1 =
      [(authOf args.hub_token, some args.hub_private_repo)] ∨
    bindEvents (init_git_repo env args at_init).1 =
      [(authOf args.hub_token, some args.hub_private_repo),
       (authOf args.hub_token, none)] := by
  rcases init_git_repo_cases env args at_init with ⟨-, heq⟩ | ⟨-, evs, hcase⟩
  · rw [heq]
    exact Or.inl rfl
  · have hresv : (resolveRepoName env args).1 = evs := by
      rcases hcase with ⟨e, hres, -⟩ | ⟨rn, hres, -⟩ <;> rw [hres]
    have hbev : bindEvents evs = [] := by
      rcases resolveRepoName_trace_cases env args with h0 | ⟨t, h0⟩ <;>
        rw [hresv] at h0 <;> rw [h0] <;> rfl
    have hbgi : bindEvents (gitignoreEvents env args) = [] := by
      rcases gitignoreEvents_cases env args with hg | hg <;> rw [hg] <;> rfl
    rcases hcase with ⟨e, hres, heq⟩ | ⟨rn, hres, hcase2⟩
    · rw [heq]
      exact Or.inl hbev
    · rcases hcase2 with ⟨-, heq⟩ | ⟨m, -, -, ⟨-, heq⟩ | ⟨e2, -, heq⟩⟩ |
        ⟨m, -, -, heq⟩ | ⟨m, -, heq⟩ <;> rw [heq] <;>
        simp only [bindEvents_append, hbev, hbgi]
      · exact Or.inr (Or.inl rfl)
      · exact Or.inr (Or.inr rfl)
      · exact Or.inr (Or.inr rfl)
      · exact Or.inr (Or.inl rfl)
      · exact Or.inr (Or.inl rfl)

end HubUtils
